import Mathlib

/-!
Verification development for the lighthouse driver core: the protocol
session / page-load orchestration engine and the AnchorElements gatherer.

The AnchorElements gatherer is embedded directly from
`src/lighthouse-core/gather/gatherers/anchor-elements.js`.  The driver
itself (`lighthouse-core/gather/driver.js`) is not part of the source
tree here — only its test suite is — so its operations are modelled from
the specification (each such definition carries a doc comment starting
with `Modelled from the spec:`).
-/

deriving instance DecidableEq for Except

namespace Lighthouse

/-! ## AnchorElements gatherer (from source) -/

/-- An anchor element record as returned by the in-page collection script
(`href`, `text`, `rel`, `target`, `outerHTML`), see
`anchor-elements.js`. -/
structure AnchorElement where
  href : String
  text : String
  rel : String
  target : String
  outerHTML : String
deriving DecidableEq, Repr

/-- The post-processing performed by `AnchorElements.afterPass` on the array
returned by `evaluateAsync`: each anchor's `rel` and `target` fields are
lowercased in place; the other fields are left untouched
(`anchor-elements.js` lines 43-48). -/
def anchorElementsAfterPass (anchors : List AnchorElement) : List AnchorElement :=
  anchors.map fun a => { a with rel := a.rel.toLower, target := a.target.toLower }

/-! ## Session controls: throttling (modelled from the spec) -/

/-- The payload of a `Network.emulateNetworkConditions` command. -/
structure NetworkConditions where
  offline : Bool
  latency : Nat
  downloadThroughput : Nat
  uploadThroughput : Nat
deriving DecidableEq, Repr

/-- Configured throttling settings (latency in ms, throughputs in Kbps). -/
structure ThrottlingSettings where
  requestLatencyMs : Nat
  downloadThroughputKbps : Nat
  uploadThroughputKbps : Nat
deriving DecidableEq, Repr

/-- Modelled from the spec: Kbps values convert to bytes per second via
multiplying by 1024 and dividing by 8. -/
def kbpsToBytesPerSecond (kbps : Nat) : Nat :=
  kbps * 1024 / 8

/-- Modelled from the spec: `goOffline` always zeroes all bandwidth and
latency settings and marks the connection offline.  (`driver.js` is not in
the source tree; behaviour from spec §4.6.) -/
def goOfflineConditions : NetworkConditions :=
  { offline := true, latency := 0, downloadThroughput := 0, uploadThroughput := 0 }

/-- Modelled from the spec: `goOnline` restores the configured
latency/bandwidth only when the throttling method is the protocol-driven
one (`devtools`) and throttling is enabled for the pass; otherwise it
clears to the zeroed state with `offline := false`.  (`driver.js` is not
in the source tree; behaviour from spec §4.6.) -/
def goOnlineConditions (useThrottling : Bool) (throttlingMethod : String)
    (t : ThrottlingSettings) : NetworkConditions :=
  if throttlingMethod == "devtools" && useThrottling then
    { offline := false
      latency := t.requestLatencyMs
      downloadThroughput := kbpsToBytesPerSecond t.downloadThroughputKbps
      uploadThroughput := kbpsToBytesPerSecond t.uploadThroughputKbps }
  else
    { offline := false, latency := 0, downloadThroughput := 0, uploadThroughput := 0 }

/-! ## Session controls: isolated execution-context cache (modelled from the spec) -/

/-- Modelled from the spec: the `IsolatedContextCache` is a mapping from a
frame identifier to the execution-context identifier created for it. -/
def lookupContext (cache : List (String × Nat)) (frameId : String) : Option Nat :=
  match cache.find? (fun p => p.1 == frameId) with
  | some p => some p.2
  | none => none

/-- Result of requesting an isolated context for a frame: the context id
used for evaluation, the updated cache, and whether a context-creation
command (`Page.createIsolatedWorld`) was issued. -/
structure IsolationResult where
  contextId : Nat
  cache : List (String × Nat)
  createWorldIssued : Bool
deriving DecidableEq, Repr

/-- Modelled from the spec: `evaluateAsync` with `useIsolation` creates, or
reuses a cached, isolated execution context per frame.  On a cache hit no
creation command is issued; on a miss a fresh context is created, issued
and cached. -/
def getOrCreateIsolatedContextId (cache : List (String × Nat)) (frameId : String)
    (freshId : Nat) : IsolationResult :=
  match lookupContext cache frameId with
  | some cid => { contextId := cid, cache := cache, createWorldIssued := false }
  | none =>
      { contextId := freshId
        cache := (frameId, freshId) :: cache
        createWorldIssued := true }

/-- Modelled from the spec: cache entries are invalidated on navigation of
the owning frame. -/
def clearContextOnNavigation (cache : List (String × Nat)) (frameId : String) :
    List (String × Nat) :=
  cache.filter fun p => p.1 != frameId

/-! ## Command correlator (modelled from the spec) -/

/-- A classified driver error: an error `code` plus a user-facing
`friendlyMessage`. -/
structure LHError where
  code : String
  friendlyMessage : String
deriving DecidableEq, Repr

/-- Default per-command protocol timeout, in milliseconds. -/
def DEFAULT_PROTOCOL_TIMEOUT : Nat := 30000

/-- The slice of driver state governing per-command timeouts: the optional
override installed by `setNextProtocolTimeout`. -/
structure ProtocolTimeoutState where
  nextProtocolTimeout : Option Nat
deriving DecidableEq, Repr

/-- Modelled from the spec: `setNextProtocolTimeout` installs a timeout
override for exactly the next `sendCommand` call. -/
def setNextProtocolTimeout (_s : ProtocolTimeoutState) (t : Nat) : ProtocolTimeoutState :=
  { nextProtocolTimeout := some t }

/-- Modelled from the spec: the timeout used by a `sendCommand` call is the
pending override if one was set, else the default; consuming it clears the
override so it applies to exactly one call. -/
def takeProtocolTimeout (s : ProtocolTimeoutState) : Nat × ProtocolTimeoutState :=
  (s.nextProtocolTimeout.getD DEFAULT_PROTOCOL_TIMEOUT, { nextProtocolTimeout := none })

/-- Modelled from the spec: the `PROTOCOL_TIMEOUT` error produced when a
command's response does not arrive in time; its `friendlyMessage` mentions
waiting for DevTools and names the failing method. -/
def protocolTimeoutError (method : String) : LHError :=
  { code := "PROTOCOL_TIMEOUT"
    friendlyMessage :=
      "Waiting for DevTools protocol response has exceeded the allotted time. (Method: "
        ++ method ++ ")" }

/-- A pending command entry: the method sent, its timeout budget, elapsed
milliseconds, and the single-settlement outcome (`none` while in flight). -/
structure PendingCommand where
  method : String
  timeoutMs : Nat
  elapsed : Nat
  outcome : Option (Except LHError Nat)
deriving DecidableEq, Repr

/-- An event observed by a pending command: one elapsed millisecond, or the
arrival of the response payload. -/
inductive CmdEvt
  | tick
  | response (payload : Nat)
deriving DecidableEq, Repr

/-- Modelled from the spec: a pending command settles at most once.  On
timer expiry (elapsed time reaching the timeout) it fails with
`PROTOCOL_TIMEOUT`; a response arriving first resolves it; events after
settlement are ignored (idempotent completion). -/
def stepCmd (c : PendingCommand) (e : CmdEvt) : PendingCommand :=
  if c.outcome.isSome then c else
  match e with
  | .tick =>
      let el := c.elapsed + 1
      if c.timeoutMs ≤ el then
        { c with elapsed := el
                 outcome := some (.error (protocolTimeoutError c.method)) }
      else { c with elapsed := el }
  | .response p => { c with outcome := some (.ok p) }

/-- Run a pending command over a sequence of observed events. -/
def runCmd (c : PendingCommand) (es : List CmdEvt) : PendingCommand :=
  es.foldl stepCmd c

/-- Modelled from the spec: `sendCommand` creates a fresh pending entry whose
timeout is the consumed per-call override or the default. -/
def sendCommandStart (s : ProtocolTimeoutState) (method : String) :
    PendingCommand × ProtocolTimeoutState :=
  let t := takeProtocolTimeout s
  ({ method := method, timeoutMs := t.1, elapsed := 0, outcome := none }, t.2)

/-! ## Session controls: trace categories (modelled from the spec) -/

/-- Default trace category set requested by `beginTrace`. -/
def defaultTraceCategories : List String :=
  ["-*", "disabled-by-default-lighthouse", "loading", "v8", "v8.execute",
   "blink.user_timing", "blink.console", "devtools.timeline",
   "disabled-by-default-devtools.timeline",
   "disabled-by-default-devtools.timeline.frame",
   "disabled-by-default-devtools.timeline.stack",
   "disabled-by-default-devtools.screenshot"]

/-- Split a character list at every occurrence of a separator character. -/
def splitChars (sep : Char) : List Char → List (List Char)
  | [] => [[]]
  | c :: rest =>
      match splitChars sep rest with
      | [] => [[c]]
      | g :: gs => if c = sep then [] :: g :: gs else (c :: g) :: gs

/-- Split a string at every comma. -/
def splitOnComma (s : String) : List String :=
  (splitChars ',' s.data).map fun cs => String.mk cs

/-- The requested additional categories, a comma-separated string. -/
def additionalCategoryList : Option String → List String
  | none => []
  | some s => splitOnComma s

/-- De-duplication keeping the first occurrence of each category (the order
`new Set` iteration preserves). -/
def dedupAux : List String → List String → List String
  | [], _ => []
  | c :: rest, seen =>
      if c ∈ seen then dedupAux rest seen else c :: dedupAux rest (c :: seen)

/-- De-duplicate a category list, keeping first occurrences. -/
def dedupKeepFirst (l : List String) : List String :=
  dedupAux l []

/-- Modelled from the spec: browsers below milestone 71 lack the
`disabled-by-default-lighthouse` category; for them the unsupported
category is dropped and the documented fallback `toplevel` substituted. -/
def substituteUnsupported (milestone : Nat) (cats : List String) : List String :=
  if milestone < 71 then
    cats.map fun c => if c == "disabled-by-default-lighthouse" then "toplevel" else c
  else cats

/-- Modelled from the spec: the category set passed to `Tracing.start` is the
default set plus the requested additional categories, with the
version-dependent substitution applied and duplicates removed. -/
def computeTraceCategories (milestone : Nat) (additional : Option String) : List String :=
  dedupKeepFirst
    (substituteUnsupported milestone (defaultTraceCategories ++ additionalCategoryList additional))

/-! ## Service-worker safety check (modelled from the spec) -/

/-- A service-worker registration as delivered by
`ServiceWorker.workerRegistrationUpdated`. -/
structure SWRegistration where
  registrationId : Nat
  scopeURL : String
  isDeleted : Bool
deriving DecidableEq, Repr

/-- A service-worker version as delivered by
`ServiceWorker.workerVersionUpdated`. -/
structure SWVersion where
  registrationId : Nat
  scriptURL : String
  controlledClients : List String
  status : String
deriving DecidableEq, Repr

/-- The characters of a URL host, up to the first slash. -/
def takeUntilSlash : List Char → List Char
  | [] => []
  | c :: rest => if c = '/' then [] else c :: takeUntilSlash rest

/-- Split a URL's characters at the first occurrence of the sequence
`://`, returning the scheme part and the remainder. -/
def splitSchemeAux : List Char → Option (List Char × List Char)
  | [] => none
  | ':' :: '/' :: '/' :: rest => some ([], rest)
  | c :: rest =>
      match splitSchemeAux rest with
      | some (sch, r) => some (c :: sch, r)
      | none => none

/-- The origin (scheme and host) of a URL string. -/
def urlOrigin (u : String) : String :=
  match splitSchemeAux u.data with
  | some (sch, rest) =>
      String.mk (sch ++ (':' :: '/' :: '/' :: takeUntilSlash rest))
  | none => u

/-- Modelled from the spec: `installing` and `activating` are the
non-terminal worker statuses; any other status is terminal. -/
def isTerminalStatus (st : String) : Bool :=
  st != "installing" && st != "activating"

/-- Modelled from the spec: the registrations relevant to a page are those
whose scope is same-origin with the page URL and that are not marked
deleted. -/
def matchingRegistrations (pageUrl : String) (regs : List SWRegistration) :
    List SWRegistration :=
  regs.filter fun r => !r.isDeleted && urlOrigin r.scopeURL == urlOrigin pageUrl

/-- Join worker versions to a set of registrations by registration id. -/
def versionsOfRegistrations (regs : List SWRegistration) (vsns : List SWVersion) :
    List SWVersion :=
  vsns.filter fun v => regs.any fun r => r.registrationId == v.registrationId

/-- The verdict of one evaluation of the service-worker assertion against a
version snapshot. -/
inductive SWDecision
  | keepWaiting
  | fail (msg : String)
  | pass
deriving DecidableEq, Repr

/-- Failure message for the service-worker assertion. -/
def swFailureMessage : String :=
  "A same-origin service worker is already controlling other open tabs, making the measurement unreliable."

/-- Modelled from the spec: `assertNoSameOriginServiceWorkerClients` filters
same-origin, non-deleted registrations, joins worker versions by
registration id, and considers the versions that still have controlled
clients: while any such version is at a non-terminal status it keeps
waiting; once all are terminal it fails if any remain (a same-origin
worker controlling other open tabs), and passes otherwise — in particular
no matching registrations, or matches with no controlled clients, pass
without waiting. -/
def swDecision (pageUrl : String) (regs : List SWRegistration) (vsns : List SWVersion) :
    SWDecision :=
  let blockers :=
    (versionsOfRegistrations (matchingRegistrations pageUrl regs) vsns).filter
      fun v => !v.controlledClients.isEmpty
  if blockers.any fun v => !(isTerminalStatus v.status) then .keepWaiting
  else if !blockers.isEmpty then .fail swFailureMessage
  else .pass

/-- Modelled from the spec: the assertion re-evaluates on each subsequent
version-update event; it settles at the first decisive verdict and stays
pending (`none`) while every snapshot so far said to keep waiting. -/
def swRun (pageUrl : String) (regs : List SWRegistration)
    (events : List (List SWVersion)) : Option (Except String Unit) :=
  match events with
  | [] => none
  | vs :: rest =>
      match swDecision pageUrl regs vs with
      | .keepWaiting => swRun pageUrl regs rest
      | .fail m => some (.error m)
      | .pass => some (.ok ())

/-! ## Load orchestrator (modelled from the spec) -/

/-- Status of one cancellable wait: never armed, armed and pending,
resolved, or cancelled. -/
inductive WaitStatus
  | notArmed
  | pending
  | resolvedW
  | cancelled
deriving DecidableEq, Repr

/-- One cancellable wait slot: its status plus a tally of how many times its
cancel function has been called. -/
structure WaitSlot where
  status : WaitStatus
  cancelCount : Nat
deriving DecidableEq, Repr

/-- The four constituent waits of a `gotoURL` load. -/
inductive WaitKind
  | fcp
  | loadEvent
  | networkIdle
  | cpuIdle
deriving DecidableEq, Repr

/-- The `gotoURL` configuration flags relevant to wait composition. -/
structure GotoOptions where
  waitForNavigated : Bool
  waitForFCP : Bool
  waitForLoad : Bool
deriving DecidableEq, Repr

/-- One explanation attached to a `Security.securityStateChanged` event. -/
structure SecurityExplanation where
  description : String
  securityState : String
deriving DecidableEq, Repr

/-- A `Security.securityStateChanged` event payload. -/
structure SecurityStateEvent where
  securityState : String
  explanations : List SecurityExplanation
deriving DecidableEq, Repr

/-- The state of one in-flight `gotoURL` load: configuration, currently
committed URL, the four wait slots, and the single-settlement outcome. -/
structure LoadState where
  opts : GotoOptions
  url : String
  fcp : WaitSlot
  loadEvent : WaitSlot
  networkIdle : WaitSlot
  cpuIdle : WaitSlot
  outcome : Option (Except LHError String)
deriving DecidableEq, Repr

/-- Events observed by an in-flight load: one of the constituent waits
resolving, a committed frame navigation, a security-state change, or the
global `maxWaitForLoad` timeout firing. -/
inductive LoadEvt
  | resolveWait (w : WaitKind)
  | frameNavigated (url : String)
  | securityStateChanged (ev : SecurityStateEvent)
  | maxLoadTimeout
deriving DecidableEq, Repr

/-- Read the slot of one wait kind. -/
def getSlot (s : LoadState) : WaitKind → WaitSlot
  | .fcp => s.fcp
  | .loadEvent => s.loadEvent
  | .networkIdle => s.networkIdle
  | .cpuIdle => s.cpuIdle

/-- Replace the slot of one wait kind. -/
def setSlot (s : LoadState) : WaitKind → WaitSlot → LoadState
  | .fcp, sl => { s with fcp := sl }
  | .loadEvent, sl => { s with loadEvent := sl }
  | .networkIdle, sl => { s with networkIdle := sl }
  | .cpuIdle, sl => { s with cpuIdle := sl }

/-- A pending wait resolves; any other status is unchanged. -/
def resolveSlot (sl : WaitSlot) : WaitSlot :=
  match sl.status with
  | .pending => { status := .resolvedW, cancelCount := sl.cancelCount }
  | _ => sl

/-- Cancelling a wait: a pending wait becomes cancelled and its cancel
function is called once more; cancel is a no-op on any other status. -/
def cancelSlot (sl : WaitSlot) : WaitSlot :=
  match sl.status with
  | .pending => { status := .cancelled, cancelCount := sl.cancelCount + 1 }
  | _ => sl

/-- Arming a not-yet-armed wait makes it pending; any other status is
unchanged. -/
def armSlot (sl : WaitSlot) : WaitSlot :=
  match sl.status with
  | .notArmed => { status := .pending, cancelCount := sl.cancelCount }
  | _ => sl

/-- A wait slot armed at the start of the load if `b`, else left unarmed. -/
def armedIf (b : Bool) : WaitSlot :=
  { status := if b then .pending else .notArmed, cancelCount := 0 }

/-- Modelled from the spec: `gotoURL`'s initial wait arming
(`driver.js` is not in the source tree).  With `waitForNavigated` no
other signal participates; otherwise the enabled subset of
first-contentful-paint, load-event and network-idle is armed, while
CPU-idle stays unarmed until both load-event and network-idle resolve. -/
def initLoadState (url : String) (opts : GotoOptions) : LoadState :=
  { opts := opts
    url := url
    fcp := armedIf (!opts.waitForNavigated && opts.waitForFCP)
    loadEvent := armedIf (!opts.waitForNavigated && opts.waitForLoad)
    networkIdle := armedIf (!opts.waitForNavigated && opts.waitForLoad)
    cpuIdle := { status := .notArmed, cancelCount := 0 }
    outcome := none }

/-- Cancel every still-pending wait of the load. -/
def cancelAllPending (s : LoadState) : LoadState :=
  { s with fcp := cancelSlot s.fcp
           loadEvent := cancelSlot s.loadEvent
           networkIdle := cancelSlot s.networkIdle
           cpuIdle := cancelSlot s.cpuIdle }

/-- The explanations of a security-state event tagged `insecure`. -/
def insecureExplanations (ev : SecurityStateEvent) : List SecurityExplanation :=
  ev.explanations.filter fun e => e.securityState == "insecure"

/-- Modelled from the spec: the rejection message concatenates the
descriptions of only the `insecure`-tagged explanations. -/
def insecureMessage (ev : SecurityStateEvent) : String :=
  String.intercalate " " ((insecureExplanations ev).map SecurityExplanation.description)

/-- The `INSECURE_DOCUMENT_REQUEST` error raised for an insecure security
state. -/
def insecureError (ev : SecurityStateEvent) : LHError :=
  { code := "INSECURE_DOCUMENT_REQUEST", friendlyMessage := insecureMessage ev }

/-- True when every signal enabled by the configuration has resolved. -/
def allEnabledResolved (s : LoadState) : Bool :=
  (!s.opts.waitForFCP || s.fcp.status == .resolvedW)
    && (!s.opts.waitForLoad
        || (s.loadEvent.status == .resolvedW
            && s.networkIdle.status == .resolvedW
            && s.cpuIdle.status == .resolvedW))

/-- Modelled from the spec: CPU-idle is armed only once both load-event and
network-idle have resolved. -/
def maybeArmCpu (s : LoadState) : LoadState :=
  if s.opts.waitForLoad
      && s.loadEvent.status == .resolvedW
      && s.networkIdle.status == .resolvedW then
    { s with cpuIdle := armSlot s.cpuIdle }
  else s

/-- Settle successfully with the committed URL once every enabled signal has
resolved. -/
def maybeSettle (s : LoadState) : LoadState :=
  if allEnabledResolved s then { s with outcome := some (.ok s.url) } else s

/-- Modelled from the spec: one step of the `gotoURL` orchestration state
machine (`driver.js` is not in the source tree).  A settled load ignores
all further events.  A resolving wait may arm the dependent CPU-idle wait
and may settle the load; a frame navigation updates the committed URL
(and settles immediately under `waitForNavigated`); a security event with
at least one `insecure` explanation cancels all pending waits and rejects
with `INSECURE_DOCUMENT_REQUEST`; the global timeout cancels all pending
waits and resolves successfully with the currently committed URL. -/
def stepLoad (s : LoadState) (e : LoadEvt) : LoadState :=
  if s.outcome.isSome then s else
  match e with
  | .resolveWait w =>
      maybeSettle (maybeArmCpu (setSlot s w (resolveSlot (getSlot s w))))
  | .frameNavigated u =>
      if s.opts.waitForNavigated then
        { s with url := u, outcome := some (.ok u) }
      else { s with url := u }
  | .securityStateChanged ev =>
      if (insecureExplanations ev).isEmpty then s
      else { (cancelAllPending s) with outcome := some (.error (insecureError ev)) }
  | .maxLoadTimeout =>
      { (cancelAllPending s) with outcome := some (.ok s.url) }

/-- Run a load over a sequence of observed events. -/
def runLoad (s : LoadState) (es : List LoadEvt) : LoadState :=
  es.foldl stepLoad s

/-- The events resolving the three `waitForLoad` signals in their dependency
order. -/
def resolveAllLoadWaits : List LoadEvt :=
  [.resolveWait .loadEvent, .resolveWait .networkIdle, .resolveWait .cpuIdle]

/-! ## Helper lemmas -/

/-- Clearing a frame's cache entry on navigation makes a later lookup for
that frame miss. -/
lemma lookupContext_clear (cache : List (String × Nat)) (f : String) :
    lookupContext (clearContextOnNavigation cache f) f = none := by
  have h : (clearContextOnNavigation cache f).find? (fun p => p.1 == f) = none := by
    apply List.find?_eq_none.mpr
    intro p hp
    have h2 := (List.mem_filter.mp hp).2
    simp only [clearContextOnNavigation, bne_iff_ne, ne_eq] at h2 ⊢
    simp [h2]
  simp [lookupContext, h]

/-! ## Claim theorems -/

/-- Claim C7: for every pair of `evaluateAsync` calls with `useIsolation` on
the same frame with no intervening navigation of that frame, the second
call reuses the isolated execution context created for the first — no
second context-creation command is issued and evaluation happens in that
context's id — and after a navigation of the frame the cached context is
not reused (a fresh creation command is issued). -/
theorem evaluateAsync_isolation_reuses_context_until_navigation
    (cache : List (String × Nat)) (frameId : String) (freshId freshId2 : Nat)
    (h : lookupContext cache frameId = none) :
    (getOrCreateIsolatedContextId cache frameId freshId).createWorldIssued = true ∧
    (getOrCreateIsolatedContextId cache frameId freshId).contextId = freshId ∧
    (getOrCreateIsolatedContextId
        (getOrCreateIsolatedContextId cache frameId freshId).cache
        frameId freshId2).createWorldIssued = false ∧
    (getOrCreateIsolatedContextId
        (getOrCreateIsolatedContextId cache frameId freshId).cache
        frameId freshId2).contextId = freshId ∧
    (getOrCreateIsolatedContextId
        (clearContextOnNavigation
          (getOrCreateIsolatedContextId cache frameId freshId).cache frameId)
        frameId freshId2).createWorldIssued = true := by
  have h1 : getOrCreateIsolatedContextId cache frameId freshId =
      { contextId := freshId, cache := (frameId, freshId) :: cache,
        createWorldIssued := true } := by
    simp [getOrCreateIsolatedContextId, h]
  have h2 : lookupContext ((frameId, freshId) :: cache) frameId = some freshId := by
    simp [lookupContext, List.find?]
  refine ⟨by rw [h1], by rw [h1], ?_, ?_, ?_⟩
  · rw [h1]; simp [getOrCreateIsolatedContextId, h2]
  · rw [h1]; simp [getOrCreateIsolatedContextId, h2]
  · rw [h1]
    simp only [getOrCreateIsolatedContextId, lookupContext_clear]

/-- Claim C7 witness at a concrete cache and frame. -/
theorem evaluateAsync_isolation_reuses_context_until_navigation_witness :
    (getOrCreateIsolatedContextId [] "1337" 1).createWorldIssued = true ∧
    (getOrCreateIsolatedContextId [] "1337" 1).contextId = 1 ∧
    (getOrCreateIsolatedContextId
        (getOrCreateIsolatedContextId [] "1337" 1).cache "1337" 2).createWorldIssued = false ∧
    (getOrCreateIsolatedContextId
        (getOrCreateIsolatedContextId [] "1337" 1).cache "1337" 2).contextId = 1 ∧
    (getOrCreateIsolatedContextId
        (clearContextOnNavigation
          (getOrCreateIsolatedContextId [] "1337" 1).cache "1337")
        "1337" 2).createWorldIssued = true :=
  evaluateAsync_isolation_reuses_context_until_navigation [] "1337" 1 2 (by decide)

/-- Claim C8: `goOffline` always issues offline `true` with zeroed latency
and throughputs; `goOnline` issues offline `false` with the configured
latency and each Kbps value converted via multiplying by 1024 and
dividing by 8 exactly when the throttling method is `devtools` and
throttling is enabled for the pass, and otherwise issues offline `false`
with all three values zero. -/
theorem goOffline_goOnline_conditions
    (u : Bool) (method : String) (t : ThrottlingSettings)
    (hm : method ≠ "devtools") :
    goOfflineConditions =
      { offline := true, latency := 0, downloadThroughput := 0, uploadThroughput := 0 } ∧
    goOnlineConditions true "devtools" t =
      { offline := false
        latency := t.requestLatencyMs
        downloadThroughput := t.downloadThroughputKbps * 1024 / 8
        uploadThroughput := t.uploadThroughputKbps * 1024 / 8 } ∧
    goOnlineConditions u method t =
      { offline := false, latency := 0, downloadThroughput := 0, uploadThroughput := 0 } ∧
    goOnlineConditions false "devtools" t =
      { offline := false, latency := 0, downloadThroughput := 0, uploadThroughput := 0 } ∧
    goOnlineConditions true "devtools" ⟨500, 1000, 1000⟩ =
      { offline := false, latency := 500, downloadThroughput := 128000,
        uploadThroughput := 128000 } := by
  have hm2 : (method == "devtools") = false := by
    exact beq_eq_false_iff_ne.mpr hm
  refine ⟨rfl, ?_, ?_, ?_, by decide⟩
  · simp [goOnlineConditions, kbpsToBytesPerSecond]
  · simp [goOnlineConditions, hm2]
  · simp [goOnlineConditions]

/-- Claim C8 witness at the configuration of the driver test
(`latency 500, download 1000 Kbps, upload 1000 Kbps`). -/
theorem goOffline_goOnline_conditions_witness :
    goOnlineConditions true "provided" ⟨500, 1000, 1000⟩ =
      { offline := false, latency := 0, downloadThroughput := 0, uploadThroughput := 0 } ∧
    goOnlineConditions true "devtools" ⟨500, 1000, 1000⟩ =
      { offline := false, latency := 500, downloadThroughput := 128000,
        uploadThroughput := 128000 } :=
  ⟨(goOffline_goOnline_conditions true "provided" ⟨500, 1000, 1000⟩ (by decide)).2.2.1,
   (goOffline_goOnline_conditions true "provided" ⟨500, 1000, 1000⟩ (by decide)).2.2.2.2⟩

/-- Claim C10: `AnchorElements.afterPass` post-processes the array returned
by `evaluateAsync` by lowercasing exactly the `rel` and `target` fields of
every element, leaving `href`, `text` and `outerHTML` untouched, and
preserving the array's length. -/
theorem anchorElements_afterPass_lowercases_rel_target
    (anchors : List AnchorElement) (i : Nat)
    (h1 : i < anchors.length)
    (h2 : i < (anchorElementsAfterPass anchors).length) :
    (anchorElementsAfterPass anchors).length = anchors.length ∧
    ((anchorElementsAfterPass anchors).get ⟨i, h2⟩).rel
      = (anchors.get ⟨i, h1⟩).rel.toLower ∧
    ((anchorElementsAfterPass anchors).get ⟨i, h2⟩).target
      = (anchors.get ⟨i, h1⟩).target.toLower ∧
    ((anchorElementsAfterPass anchors).get ⟨i, h2⟩).href
      = (anchors.get ⟨i, h1⟩).href ∧
    ((anchorElementsAfterPass anchors).get ⟨i, h2⟩).text
      = (anchors.get ⟨i, h1⟩).text ∧
    ((anchorElementsAfterPass anchors).get ⟨i, h2⟩).outerHTML
      = (anchors.get ⟨i, h1⟩).outerHTML := by
  refine ⟨by simp [anchorElementsAfterPass], ?_, ?_, ?_, ?_, ?_⟩ <;>
    simp [anchorElementsAfterPass, List.getElem_map]

/-- Claim C10 witness on a concrete one-element anchor array. -/
theorem anchorElements_afterPass_lowercases_rel_target_witness :
    ((anchorElementsAfterPass
        [{ href := "https://example.com/", text := "hi", rel := "NOOPENER",
           target := "_BLANK", outerHTML := "<a>hi</a>" }]).get
      ⟨0, by decide⟩).rel
      = (([{ href := "https://example.com/", text := "hi", rel := "NOOPENER",
             target := "_BLANK", outerHTML := "<a>hi</a>" }] :
            List AnchorElement).get ⟨0, by decide⟩).rel.toLower ∧
    ((anchorElementsAfterPass
        [{ href := "https://example.com/", text := "hi", rel := "NOOPENER",
           target := "_BLANK", outerHTML := "<a>hi</a>" }]).get
      ⟨0, by decide⟩).href
      = (([{ href := "https://example.com/", text := "hi", rel := "NOOPENER",
             target := "_BLANK", outerHTML := "<a>hi</a>" }] :
            List AnchorElement).get ⟨0, by decide⟩).href :=
  ⟨(anchorElements_afterPass_lowercases_rel_target _ 0 (by decide) (by decide)).2.1,
   (anchorElements_afterPass_lowercases_rel_target _ 0 (by decide) (by decide)).2.2.2.1⟩

/-- A settled command ignores any further event. -/
lemma stepCmd_settled (c : PendingCommand) (e : CmdEvt) (h : c.outcome.isSome) :
    stepCmd c e = c := by
  unfold stepCmd
  simp [h]

/-- A settled command ignores any further sequence of events. -/
lemma runCmd_settled (c : PendingCommand) (es : List CmdEvt) (h : c.outcome.isSome) :
    runCmd c es = c := by
  induction es with
  | nil => rfl
  | cons e es ih =>
      rw [runCmd, List.foldl_cons, stepCmd_settled c e h]
      exact ih

/-- A pending command whose timeout lies within the next `n` elapsed
milliseconds fails with the protocol-timeout error. -/
lemma runCmd_ticks_timeout (m : String) (t e n : Nat) (h1 : e < t) (h2 : t ≤ e + n) :
    runCmd { method := m, timeoutMs := t, elapsed := e, outcome := none }
        (List.replicate n .tick)
      = { method := m, timeoutMs := t, elapsed := t,
          outcome := some (.error (protocolTimeoutError m)) } := by
  induction n generalizing e with
  | zero => omega
  | succ n ih =>
      rw [List.replicate_succ, runCmd, List.foldl_cons]
      by_cases hc : t ≤ e + 1
      · have he : e + 1 = t := by omega
        have hstep : stepCmd { method := m, timeoutMs := t, elapsed := e, outcome := none }
            CmdEvt.tick
            = { method := m, timeoutMs := t, elapsed := t,
                outcome := some (.error (protocolTimeoutError m)) } := by
          simp [stepCmd, hc, he]
        rw [hstep]
        exact runCmd_settled _ _ (by rfl)
      · have hstep : stepCmd { method := m, timeoutMs := t, elapsed := e, outcome := none }
            CmdEvt.tick
            = { method := m, timeoutMs := t, elapsed := e + 1, outcome := none } := by
          simp [stepCmd, hc]
        rw [hstep]
        exact ih (e + 1) (by omega) (by omega)

/-- Claim C4: a `sendCommand` call whose per-call timeout `T` — installed by
`setNextProtocolTimeout`, which applies to exactly the next call, the call
after it falling back to the default — elapses without a response rejects
with `PROTOCOL_TIMEOUT`, whose `friendlyMessage` mentions
`Waiting for DevTools` and `Method:` followed by the failing method's
name; the call never resolves afterwards even if a late response
arrives. -/
theorem sendCommand_timeout_rejects_never_resolves
    (s : ProtocolTimeoutState) (T n : Nat) (method : String) (es : List CmdEvt)
    (hT : 0 < T) (hn : T ≤ n) :
    (sendCommandStart (setNextProtocolTimeout s T) method).1.timeoutMs = T ∧
    (sendCommandStart (sendCommandStart (setNextProtocolTimeout s T) method).2
        method).1.timeoutMs = DEFAULT_PROTOCOL_TIMEOUT ∧
    (runCmd (sendCommandStart (setNextProtocolTimeout s T) method).1
        (List.replicate n .tick ++ es)).outcome
      = some (.error (protocolTimeoutError method)) ∧
    (protocolTimeoutError method).code = "PROTOCOL_TIMEOUT" ∧
    (∃ mid : String, (protocolTimeoutError method).friendlyMessage
      = "Waiting for DevTools" ++ mid ++ ("Method: " ++ method ++ ")")) := by
  refine ⟨rfl, rfl, ?_, rfl, ?_⟩
  · have hstart : (sendCommandStart (setNextProtocolTimeout s T) method).1
        = { method := method, timeoutMs := T, elapsed := 0, outcome := none } := rfl
    rw [hstart, runCmd, List.foldl_append]
    have hticks := runCmd_ticks_timeout method T 0 n hT (by omega)
    rw [runCmd] at hticks
    rw [hticks]
    rw [show ∀ c : PendingCommand, List.foldl stepCmd c es = runCmd c es from fun c => rfl]
    rw [runCmd_settled _ _ (by rfl)]
  · refine ⟨" protocol response has exceeded the allotted time. (", ?_⟩
    have hlit : ("Waiting for DevTools" ++ " protocol response has exceeded the allotted time. ("
          ++ "Method: " : String)
        = "Waiting for DevTools protocol response has exceeded the allotted time. (Method: " := by
      decide
    calc (protocolTimeoutError method).friendlyMessage
        = "Waiting for DevTools protocol response has exceeded the allotted time. (Method: "
            ++ method ++ ")" := rfl
      _ = ("Waiting for DevTools" ++ " protocol response has exceeded the allotted time. ("
            ++ "Method: ") ++ method ++ ")" := by rw [hlit]
      _ = "Waiting for DevTools" ++ " protocol response has exceeded the allotted time. ("
            ++ ("Method: " ++ method ++ ")") := by
          simp only [String.append_assoc]

/-- Claim C4 witness: the driver-test scenario — override of 5 ms on
`Page.disable`, 10 ms elapsing, then a late response. -/
theorem sendCommand_timeout_rejects_never_resolves_witness :
    (sendCommandStart (setNextProtocolTimeout { nextProtocolTimeout := none } 5)
        "Page.disable").1.timeoutMs = 5 ∧
    (runCmd (sendCommandStart (setNextProtocolTimeout { nextProtocolTimeout := none } 5)
          "Page.disable").1
        (List.replicate 10 .tick ++ [.response 3])).outcome
      = some (.error (protocolTimeoutError "Page.disable")) :=
  ⟨(sendCommand_timeout_rejects_never_resolves { nextProtocolTimeout := none } 5 10
      "Page.disable" [.response 3] (by decide) (by decide)).1,
   (sendCommand_timeout_rejects_never_resolves { nextProtocolTimeout := none } 5 10
      "Page.disable" [.response 3] (by decide) (by decide)).2.2.1⟩

/-- Membership in the de-duplication accumulator: an element occurs in the
output exactly when it occurs in the input and was not already seen. -/
lemma mem_dedupAux (x : String) :
    ∀ (l seen : List String), x ∈ dedupAux l seen ↔ (x ∈ l ∧ x ∉ seen)
  | [], seen => by simp [dedupAux]
  | c :: rest, seen => by
      by_cases hc : c ∈ seen
      · have hxc : x = c → x ∈ seen := fun h => h ▸ hc
        rw [dedupAux, if_pos hc, mem_dedupAux x rest seen]
        simp only [List.mem_cons]
        tauto
      · by_cases hx : x = c
        · subst hx
          rw [dedupAux, if_neg hc]
          simp [hc]
        · rw [dedupAux, if_neg hc]
          simp only [List.mem_cons, mem_dedupAux x rest (c :: seen)]
          tauto

/-- The de-duplication accumulator yields a duplicate-free list. -/
lemma nodup_dedupAux : ∀ (l seen : List String), (dedupAux l seen).Nodup
  | [], _ => by simp [dedupAux]
  | c :: rest, seen => by
      by_cases hc : c ∈ seen
      · rw [dedupAux, if_pos hc]
        exact nodup_dedupAux rest seen
      · rw [dedupAux, if_neg hc]
        refine List.nodup_cons.mpr ⟨?_, nodup_dedupAux rest (c :: seen)⟩
        intro hmem
        exact ((mem_dedupAux c rest (c :: seen)).mp hmem).2 (List.mem_cons_self c seen)

/-- De-duplication keeps exactly the members of the input list. -/
lemma mem_dedupKeepFirst (x : String) (l : List String) :
    x ∈ dedupKeepFirst l ↔ x ∈ l := by
  rw [dedupKeepFirst, mem_dedupAux]
  simp

/-- De-duplication yields a duplicate-free list. -/
lemma nodup_dedupKeepFirst (l : List String) : (dedupKeepFirst l).Nodup :=
  nodup_dedupAux l []

/-- Claim C9: the category set passed to `Tracing.start` is the default set
united with the requested additional categories with duplicates removed —
a category named in both appears once — and when the connected browser's
milestone lacks `disabled-by-default-lighthouse` that category is dropped
and the fallback `toplevel` included instead. -/
theorem beginTrace_category_set
    (m : Nat) (additional : Option String) :
    (computeTraceCategories m additional).Nodup ∧
    (∀ c, c ∈ computeTraceCategories m additional →
        (computeTraceCategories m additional).count c = 1) ∧
    (71 ≤ m → ∀ c, c ∈ computeTraceCategories m additional ↔
        (c ∈ defaultTraceCategories ∨ c ∈ additionalCategoryList additional)) ∧
    (m < 71 →
        "disabled-by-default-lighthouse" ∉ computeTraceCategories m additional ∧
        "toplevel" ∈ computeTraceCategories m additional ∧
        (∀ c, c ∈ computeTraceCategories m additional ↔
          c ∈ substituteUnsupported m
            (defaultTraceCategories ++ additionalCategoryList additional))) := by
  have hnodup : (computeTraceCategories m additional).Nodup := by
    rw [computeTraceCategories]
    exact nodup_dedupKeepFirst _
  refine ⟨hnodup, ?_, ?_, ?_⟩
  · intro c hc
    exact List.count_eq_one_of_mem hnodup hc
  · intro hm c
    have hnot : ¬ m < 71 := by omega
    rw [computeTraceCategories, mem_dedupKeepFirst, substituteUnsupported, if_neg hnot,
      List.mem_append]
  · intro hm
    refine ⟨?_, ?_, ?_⟩
    · intro hmem
      rw [computeTraceCategories, mem_dedupKeepFirst, substituteUnsupported,
        if_pos hm] at hmem
      obtain ⟨c, _, heq⟩ := List.mem_map.mp hmem
      by_cases hc : c == "disabled-by-default-lighthouse"
      · rw [if_pos hc] at heq
        exact absurd heq (by decide)
      · rw [if_neg hc] at heq
        exact hc (beq_iff_eq.mpr heq)
    · rw [computeTraceCategories, mem_dedupKeepFirst, substituteUnsupported, if_pos hm]
      apply List.mem_map.mpr
      refine ⟨"disabled-by-default-lighthouse", ?_, by decide⟩
      exact List.mem_append_left _ (by decide)
    · intro c
      rw [computeTraceCategories, mem_dedupKeepFirst]

/-- Claim C9 witness: the driver-test scenarios — additional categories
`loading,xtra_cat` on a modern browser, and milestone 70 substitution. -/
theorem beginTrace_category_set_witness :
    "xtra_cat" ∈ computeTraceCategories 74 (some "loading,xtra_cat") ∧
    (computeTraceCategories 74 (some "loading,xtra_cat")).count "loading" = 1 ∧
    "toplevel" ∈ computeTraceCategories 70 none ∧
    "disabled-by-default-lighthouse" ∉ computeTraceCategories 70 none := by
  refine ⟨?_, ?_, ?_, ?_⟩
  · exact ((beginTrace_category_set 74 (some "loading,xtra_cat")).2.2.1 (by decide)
      "xtra_cat").mpr (Or.inr (by decide))
  · exact (beginTrace_category_set 74 (some "loading,xtra_cat")).2.1 "loading"
      (((beginTrace_category_set 74 (some "loading,xtra_cat")).2.2.1 (by decide)
        "loading").mpr (Or.inl (by decide)))
  · exact ((beginTrace_category_set 70 none).2.2.2 (by decide)).2.1
  · exact ((beginTrace_category_set 70 none).2.2.2 (by decide)).1

/-! ## Load-machine helper lemmas -/

/-- Resolving a slot does not touch its cancel tally. -/
lemma resolveSlot_cancelCount (sl : WaitSlot) :
    (resolveSlot sl).cancelCount = sl.cancelCount := by
  rw [resolveSlot]
  cases h : sl.status <;> simp

/-- Arming a slot does not touch its cancel tally. -/
lemma armSlot_cancelCount (sl : WaitSlot) :
    (armSlot sl).cancelCount = sl.cancelCount := by
  rw [armSlot]
  cases h : sl.status <;> simp

/-- Resolving a slot never produces a cancelled slot. -/
lemma resolveSlot_ne_cancelled (sl : WaitSlot) (h : sl.status ≠ .cancelled) :
    (resolveSlot sl).status ≠ .cancelled := by
  rw [resolveSlot]
  cases hs : sl.status <;> simp_all

/-- Arming a slot never produces a cancelled slot. -/
lemma armSlot_ne_cancelled (sl : WaitSlot) (h : sl.status ≠ .cancelled) :
    (armSlot sl).status ≠ .cancelled := by
  rw [armSlot]
  cases hs : sl.status <;> simp_all

/-- Cancelling a pending slot marks it cancelled and bumps its tally. -/
lemma cancelSlot_pending (sl : WaitSlot) (h : sl.status = .pending) :
    cancelSlot sl = { status := .cancelled, cancelCount := sl.cancelCount + 1 } := by
  rw [cancelSlot, h]

/-- A settled load ignores any event. -/
lemma stepLoad_settled (s : LoadState) (e : LoadEvt) (h : s.outcome.isSome) :
    stepLoad s e = s := by
  unfold stepLoad
  rw [if_pos h]

/-- A settled load ignores any sequence of events. -/
lemma runLoad_settled (s : LoadState) (es : List LoadEvt) (h : s.outcome.isSome) :
    runLoad s es = s := by
  induction es with
  | nil => rfl
  | cons e es ih =>
      rw [runLoad, List.foldl_cons, stepLoad_settled s e h]
      exact ih

/-- Running a load over an appended trace runs the two parts in turn. -/
lemma runLoad_append (s : LoadState) (es fs : List LoadEvt) :
    runLoad s (es ++ fs) = runLoad (runLoad s es) fs := by
  rw [runLoad, runLoad, runLoad, List.foldl_append]

/-- Any invariant preserved by every step holds after any trace. -/
lemma runLoad_inv (P : LoadState → Prop)
    (h : ∀ s e, P s → P (stepLoad s e)) (s : LoadState) (es : List LoadEvt) :
    P s → P (runLoad s es) := by
  induction es generalizing s with
  | nil => exact id
  | cons e es ih =>
      intro hp
      rw [runLoad, List.foldl_cons]
      exact ih (stepLoad s e) (h s e hp)

/-- Any invariant preserved by every non-timeout step holds after any trace
containing no timeout event. -/
lemma runLoad_inv_of_no_timeout (P : LoadState → Prop)
    (h : ∀ s e, e ≠ LoadEvt.maxLoadTimeout → P s → P (stepLoad s e)) :
    ∀ (es : List LoadEvt) (s : LoadState), LoadEvt.maxLoadTimeout ∉ es →
      P s → P (runLoad s es)
  | [], _, _, hp => hp
  | e :: es, s, hes, hp => by
      rw [runLoad, List.foldl_cons]
      have he : e ≠ LoadEvt.maxLoadTimeout := fun hc => hes (hc ▸ List.mem_cons_self e es)
      exact runLoad_inv_of_no_timeout P h es (stepLoad s e)
        (fun hc => hes (List.mem_cons_of_mem e hc)) (h s e he hp)

/-- Reading back a written slot, and other slots, behaves like a map
update. -/
lemma getSlot_setSlot (s : LoadState) (w k : WaitKind) (sl : WaitSlot) :
    getSlot (setSlot s w sl) k = if k = w then sl else getSlot s k := by
  cases w <;> cases k <;> simp [getSlot, setSlot]

/-- `maybeArmCpu` leaves every field except the CPU-idle slot unchanged. -/
lemma maybeArmCpu_opts (s : LoadState) : (maybeArmCpu s).opts = s.opts := by
  rw [maybeArmCpu]; split <;> rfl

lemma maybeArmCpu_url (s : LoadState) : (maybeArmCpu s).url = s.url := by
  rw [maybeArmCpu]; split <;> rfl

lemma maybeArmCpu_outcome (s : LoadState) : (maybeArmCpu s).outcome = s.outcome := by
  rw [maybeArmCpu]; split <;> rfl

lemma maybeArmCpu_fcp (s : LoadState) : (maybeArmCpu s).fcp = s.fcp := by
  rw [maybeArmCpu]; split <;> rfl

lemma maybeArmCpu_loadEvent (s : LoadState) : (maybeArmCpu s).loadEvent = s.loadEvent := by
  rw [maybeArmCpu]; split <;> rfl

lemma maybeArmCpu_networkIdle (s : LoadState) : (maybeArmCpu s).networkIdle = s.networkIdle := by
  rw [maybeArmCpu]; split <;> rfl

/-- The CPU-idle slot after `maybeArmCpu` is either armed or untouched. -/
lemma maybeArmCpu_cpuIdle (s : LoadState) :
    (maybeArmCpu s).cpuIdle = armSlot s.cpuIdle ∨ (maybeArmCpu s).cpuIdle = s.cpuIdle := by
  rw [maybeArmCpu]; split
  · exact Or.inl rfl
  · exact Or.inr rfl

/-- `maybeArmCpu` arms the CPU-idle wait exactly when load-event and
network-idle have resolved under `waitForLoad`. -/
lemma maybeArmCpu_cpuIdle_of_resolved (s : LoadState)
    (h : s.opts.waitForLoad = true) (h1 : s.loadEvent.status = .resolvedW)
    (h2 : s.networkIdle.status = .resolvedW) :
    (maybeArmCpu s).cpuIdle = armSlot s.cpuIdle := by
  rw [maybeArmCpu, if_pos]
  simp [h, h1, h2]

/-- `maybeSettle` leaves every slot, the options and the URL unchanged. -/
lemma maybeSettle_opts (s : LoadState) : (maybeSettle s).opts = s.opts := by
  rw [maybeSettle]; split <;> rfl

lemma maybeSettle_url (s : LoadState) : (maybeSettle s).url = s.url := by
  rw [maybeSettle]; split <;> rfl

lemma maybeSettle_fcp (s : LoadState) : (maybeSettle s).fcp = s.fcp := by
  rw [maybeSettle]; split <;> rfl

lemma maybeSettle_loadEvent (s : LoadState) : (maybeSettle s).loadEvent = s.loadEvent := by
  rw [maybeSettle]; split <;> rfl

lemma maybeSettle_networkIdle (s : LoadState) : (maybeSettle s).networkIdle = s.networkIdle := by
  rw [maybeSettle]; split <;> rfl

lemma maybeSettle_cpuIdle (s : LoadState) : (maybeSettle s).cpuIdle = s.cpuIdle := by
  rw [maybeSettle]; split <;> rfl

lemma maybeSettle_getSlot (s : LoadState) (k : WaitKind) :
    getSlot (maybeSettle s) k = getSlot s k := by
  cases k <;> simp [getSlot, maybeSettle_fcp, maybeSettle_loadEvent,
    maybeSettle_networkIdle, maybeSettle_cpuIdle]

lemma maybeArmCpu_getSlot_cancelCount (s : LoadState) (k : WaitKind) :
    (getSlot (maybeArmCpu s) k).cancelCount = (getSlot s k).cancelCount := by
  cases k <;>
    simp only [getSlot, maybeArmCpu_fcp, maybeArmCpu_loadEvent, maybeArmCpu_networkIdle]
  rcases maybeArmCpu_cpuIdle s with h | h <;> rw [h]
  exact armSlot_cancelCount s.cpuIdle

/-- The settling outcome of `maybeSettle`. -/
lemma maybeSettle_outcome (s : LoadState) :
    (maybeSettle s).outcome
      = if allEnabledResolved s then some (.ok s.url) else s.outcome := by
  by_cases h : allEnabledResolved s = true <;> simp [maybeSettle, h]

/-- The `resolveWait` branch of an unsettled step. -/
lemma stepLoad_resolveWait (s : LoadState) (w : WaitKind) (hs : ¬ s.outcome.isSome = true) :
    stepLoad s (.resolveWait w)
      = maybeSettle (maybeArmCpu (setSlot s w (resolveSlot (getSlot s w)))) := by
  unfold stepLoad
  rw [if_neg hs]

/-- The `frameNavigated` branch of an unsettled step. -/
lemma stepLoad_frameNavigated (s : LoadState) (u : String) (hs : ¬ s.outcome.isSome = true) :
    stepLoad s (.frameNavigated u)
      = if s.opts.waitForNavigated then { s with url := u, outcome := some (.ok u) }
        else { s with url := u } := by
  unfold stepLoad
  rw [if_neg hs]

/-- The `securityStateChanged` branch of an unsettled step. -/
lemma stepLoad_security (s : LoadState) (ev : SecurityStateEvent)
    (hs : ¬ s.outcome.isSome = true) :
    stepLoad s (.securityStateChanged ev)
      = if (insecureExplanations ev).isEmpty then s
        else { cancelAllPending s with outcome := some (.error (insecureError ev)) } := by
  unfold stepLoad
  rw [if_neg hs]

/-- The `maxLoadTimeout` branch of an unsettled step. -/
lemma stepLoad_timeout (s : LoadState) (hs : ¬ s.outcome.isSome = true) :
    stepLoad s .maxLoadTimeout
      = { cancelAllPending s with outcome := some (.ok s.url) } := by
  unfold stepLoad
  rw [if_neg hs]

/-- Options never change along a load. -/
lemma stepLoad_opts (s : LoadState) (e : LoadEvt) : (stepLoad s e).opts = s.opts := by
  by_cases hs : s.outcome.isSome
  · rw [stepLoad_settled s e hs]
  · cases e with
    | resolveWait w =>
        rw [stepLoad_resolveWait s w hs, maybeSettle_opts, maybeArmCpu_opts]
        cases w <;> rfl
    | frameNavigated u => rw [stepLoad_frameNavigated s u hs]; split <;> rfl
    | securityStateChanged ev => rw [stepLoad_security s ev hs]; split <;> rfl
    | maxLoadTimeout => rw [stepLoad_timeout s hs]; rfl

/-- Options never change along a trace. -/
lemma runLoad_opts (s : LoadState) (es : List LoadEvt) : (runLoad s es).opts = s.opts := by
  induction es generalizing s with
  | nil => rfl
  | cons e es ih =>
      rw [runLoad, List.foldl_cons]
      rw [show List.foldl stepLoad (stepLoad s e) es = runLoad (stepLoad s e) es from rfl]
      rw [ih (stepLoad s e), stepLoad_opts]

/-- Reading the slots of the cancel-everything state. -/
lemma getSlot_cancelAllPending (s : LoadState) (k : WaitKind) :
    getSlot (cancelAllPending s) k = cancelSlot (getSlot s k) := by
  cases k <;> rfl

/-- A step that leaves the load unsettled never calls any cancel function. -/
lemma stepLoad_cancelCount (s : LoadState) (e : LoadEvt) (k : WaitKind)
    (h : (stepLoad s e).outcome = none) :
    (getSlot (stepLoad s e) k).cancelCount = (getSlot s k).cancelCount := by
  by_cases hs : s.outcome.isSome
  · rw [stepLoad_settled s e hs]
  · cases e with
    | resolveWait w =>
        rw [stepLoad_resolveWait s w hs, maybeSettle_getSlot,
          maybeArmCpu_getSlot_cancelCount, getSlot_setSlot]
        by_cases hk : k = w
        · rw [if_pos hk, hk, resolveSlot_cancelCount]
        · rw [if_neg hk]
    | frameNavigated u =>
        rw [stepLoad_frameNavigated s u hs]
        split <;> (cases k <;> rfl)
    | securityStateChanged ev =>
        rw [stepLoad_security s ev hs] at h ⊢
        by_cases hi : (insecureExplanations ev).isEmpty = true
        · rw [if_pos hi]
        · rw [if_neg hi] at h
          simp at h
    | maxLoadTimeout =>
        rw [stepLoad_timeout s hs] at h
        simp at h

/-- While a load is still unsettled, no cancel function has ever been
called. -/
lemma runLoad_cancelCounts_zero (url : String) (opts : GotoOptions) (ts : List LoadEvt)
    (h : (runLoad (initLoadState url opts) ts).outcome = none) (k : WaitKind) :
    (getSlot (runLoad (initLoadState url opts) ts) k).cancelCount = 0 := by
  have hinv := runLoad_inv
    (fun s => s.outcome = none → ∀ j, (getSlot s j).cancelCount = 0)
    (fun s e hp h2 j => by
      by_cases hs : s.outcome.isSome
      · rw [stepLoad_settled s e hs] at h2 ⊢
        exact hp h2 j
      · rw [stepLoad_cancelCount s e j h2]
        exact hp (Option.not_isSome_iff_eq_none.mp hs) j)
    (initLoadState url opts) ts
    (fun _ j => by cases j <;> rfl)
  exact hinv h k

/-- Claim C1: when the global `maxWaitForLoad` timeout fires on a load whose
enabled waits have not all resolved, `gotoURL` resolves successfully — it
does not reject — with the currently committed URL, and the cancel
function of every still-pending constituent wait is called exactly once
(and never again by any later event). -/
theorem gotoURL_maxWaitForLoad_timeout_resolves_and_cancels_once
    (url : String) (opts : GotoOptions) (ts ts2 : List LoadEvt)
    (h : (runLoad (initLoadState url opts) ts).outcome = none) :
    (runLoad (runLoad (initLoadState url opts) ts)
        (LoadEvt.maxLoadTimeout :: ts2)).outcome
      = some (Except.ok (runLoad (initLoadState url opts) ts).url) ∧
    (∀ k, (getSlot (runLoad (initLoadState url opts) ts) k).status = WaitStatus.pending →
      (getSlot (runLoad (runLoad (initLoadState url opts) ts)
          (LoadEvt.maxLoadTimeout :: ts2)) k).status = WaitStatus.cancelled ∧
      (getSlot (runLoad (runLoad (initLoadState url opts) ts)
          (LoadEvt.maxLoadTimeout :: ts2)) k).cancelCount = 1) := by
  set s0 := runLoad (initLoadState url opts) ts with hs0
  have hs : ¬ s0.outcome.isSome = true := by rw [h]; simp
  have hrun : runLoad s0 (LoadEvt.maxLoadTimeout :: ts2)
      = { cancelAllPending s0 with outcome := some (.ok s0.url) } := by
    rw [runLoad, List.foldl_cons, stepLoad_timeout s0 hs]
    exact runLoad_settled _ ts2 (by rfl)
  have hget : ∀ k, getSlot { cancelAllPending s0 with outcome := some (Except.ok s0.url) } k
      = cancelSlot (getSlot s0 k) := fun k => by cases k <;> rfl
  refine ⟨by rw [hrun], ?_⟩
  intro k hk
  have hcount : (getSlot s0 k).cancelCount = 0 := runLoad_cancelCounts_zero url opts ts h k
  constructor
  · rw [hrun, hget k, cancelSlot_pending _ hk]
  · rw [hrun, hget k, cancelSlot_pending _ hk]
    simp [hcount]

/-- Claim C1 witness: a `waitForLoad` navigation whose waits never resolve,
hit by the global timeout. -/
theorem gotoURL_maxWaitForLoad_timeout_resolves_and_cancels_once_witness :
    (runLoad (runLoad (initLoadState "https://example.com"
          { waitForNavigated := false, waitForFCP := false, waitForLoad := true }) [])
        (LoadEvt.maxLoadTimeout :: [])).outcome
      = some (Except.ok (runLoad (initLoadState "https://example.com"
          { waitForNavigated := false, waitForFCP := false, waitForLoad := true }) []).url) ∧
    (getSlot (runLoad (runLoad (initLoadState "https://example.com"
          { waitForNavigated := false, waitForFCP := false, waitForLoad := true }) [])
        (LoadEvt.maxLoadTimeout :: [])) WaitKind.loadEvent).cancelCount = 1 :=
  ⟨(gotoURL_maxWaitForLoad_timeout_resolves_and_cancels_once "https://example.com"
      { waitForNavigated := false, waitForFCP := false, waitForLoad := true } [] []
      (by decide)).1,
   ((gotoURL_maxWaitForLoad_timeout_resolves_and_cancels_once "https://example.com"
      { waitForNavigated := false, waitForFCP := false, waitForLoad := true } [] []
      (by decide)).2 WaitKind.loadEvent (by decide)).2⟩

/-- Resolving keeps a never-armed slot unarmed. -/
lemma resolveSlot_of_notArmed (sl : WaitSlot) (h : sl.status = .notArmed) :
    resolveSlot sl = sl := by
  rw [resolveSlot, h]

/-- Resolving keeps a resolved slot resolved. -/
lemma resolveSlot_of_resolved (sl : WaitSlot) (h : sl.status = .resolvedW) :
    resolveSlot sl = sl := by
  rw [resolveSlot, h]

/-- Cancelling is a no-op on a non-pending slot. -/
lemma cancelSlot_of_ne_pending (sl : WaitSlot) (h : sl.status ≠ .pending) :
    cancelSlot sl = sl := by
  rw [cancelSlot]
  cases hs : sl.status <;> simp_all

/-- Arming a non-cancelled slot leaves it pending or resolved. -/
lemma armSlot_pending_or_resolved (sl : WaitSlot) (h : sl.status ≠ .cancelled) :
    (armSlot sl).status = .pending ∨ (armSlot sl).status = .resolvedW := by
  rw [armSlot]
  cases hs : sl.status <;> simp_all

/-- Writing a slot changes neither the options nor the outcome. -/
lemma setSlot_opts (s : LoadState) (w : WaitKind) (sl : WaitSlot) :
    (setSlot s w sl).opts = s.opts := by
  cases w <;> rfl

lemma setSlot_outcome (s : LoadState) (w : WaitKind) (sl : WaitSlot) :
    (setSlot s w sl).outcome = s.outcome := by
  cases w <;> rfl

lemma setSlot_url (s : LoadState) (w : WaitKind) (sl : WaitSlot) :
    (setSlot s w sl).url = s.url := by
  cases w <;> rfl

/-- `maybeSettle` does not change which signals count as resolved. -/
lemma allEnabledResolved_maybeSettle (s : LoadState) :
    allEnabledResolved (maybeSettle s) = allEnabledResolved s := by
  rw [allEnabledResolved, allEnabledResolved, maybeSettle_opts, maybeSettle_fcp,
    maybeSettle_loadEvent, maybeSettle_networkIdle, maybeSettle_cpuIdle]

/-- Arming CPU-idle preserves the gate: if the CPU-idle wait is armed
afterwards, load-event and network-idle are resolved afterwards. -/
lemma maybeArmCpu_gate (t : LoadState)
    (hp : t.cpuIdle.status ≠ .notArmed →
      t.loadEvent.status = .resolvedW ∧ t.networkIdle.status = .resolvedW) :
    (maybeArmCpu t).cpuIdle.status ≠ .notArmed →
      (maybeArmCpu t).loadEvent.status = .resolvedW ∧
      (maybeArmCpu t).networkIdle.status = .resolvedW := by
  rw [maybeArmCpu]
  split
  · rename_i hcond
    intro _
    simp only [Bool.and_eq_true, beq_iff_eq] at hcond
    exact ⟨hcond.1.2, hcond.2⟩
  · exact hp

/-- One step preserves the CPU-idle gate: an armed CPU-idle wait implies
resolved load-event and network-idle waits. -/
lemma stepLoad_cpu_gate (s : LoadState) (e : LoadEvt)
    (hp : s.cpuIdle.status ≠ .notArmed →
      s.loadEvent.status = .resolvedW ∧ s.networkIdle.status = .resolvedW) :
    (stepLoad s e).cpuIdle.status ≠ .notArmed →
      (stepLoad s e).loadEvent.status = .resolvedW ∧
      (stepLoad s e).networkIdle.status = .resolvedW := by
  by_cases hs : s.outcome.isSome
  · rw [stepLoad_settled s e hs]
    exact hp
  · cases e with
    | resolveWait w =>
        rw [stepLoad_resolveWait s w hs]
        simp only [maybeSettle_cpuIdle, maybeSettle_loadEvent, maybeSettle_networkIdle]
        apply maybeArmCpu_gate
        cases w with
        | fcp => exact hp
        | loadEvent =>
            intro hcpu
            have h2 := hp hcpu
            refine ⟨?_, h2.2⟩
            show (resolveSlot s.loadEvent).status = .resolvedW
            rw [resolveSlot_of_resolved s.loadEvent h2.1, h2.1]
        | networkIdle =>
            intro hcpu
            have h2 := hp hcpu
            refine ⟨h2.1, ?_⟩
            show (resolveSlot s.networkIdle).status = .resolvedW
            rw [resolveSlot_of_resolved s.networkIdle h2.2, h2.2]
        | cpuIdle =>
            intro hcpu
            apply hp
            intro hna
            apply hcpu
            show (resolveSlot s.cpuIdle).status = .notArmed
            rw [resolveSlot_of_notArmed s.cpuIdle hna, hna]
    | frameNavigated u =>
        rw [stepLoad_frameNavigated s u hs]
        split <;> exact hp
    | securityStateChanged ev =>
        rw [stepLoad_security s ev hs]
        split
        · exact hp
        · intro hcpu
          show (cancelSlot s.loadEvent).status = .resolvedW ∧
            (cancelSlot s.networkIdle).status = .resolvedW
          have hcpu2 : s.cpuIdle.status ≠ .notArmed := by
            intro hna
            apply hcpu
            show (cancelSlot s.cpuIdle).status = .notArmed
            rw [cancelSlot_of_ne_pending s.cpuIdle (by rw [hna]; simp), hna]
          have h2 := hp hcpu2
          rw [cancelSlot_of_ne_pending s.loadEvent (by rw [h2.1]; simp),
            cancelSlot_of_ne_pending s.networkIdle (by rw [h2.2]; simp)]
          exact h2
    | maxLoadTimeout =>
        rw [stepLoad_timeout s hs]
        intro hcpu
        show (cancelSlot s.loadEvent).status = .resolvedW ∧
          (cancelSlot s.networkIdle).status = .resolvedW
        have hcpu2 : s.cpuIdle.status ≠ .notArmed := by
          intro hna
          apply hcpu
          show (cancelSlot s.cpuIdle).status = .notArmed
          rw [cancelSlot_of_ne_pending s.cpuIdle (by rw [hna]; simp), hna]
        have h2 := hp hcpu2
        rw [cancelSlot_of_ne_pending s.loadEvent (by rw [h2.1]; simp),
          cancelSlot_of_ne_pending s.networkIdle (by rw [h2.2]; simp)]
        exact h2

/-- The armed-at-start slots are never cancelled. -/
lemma armedIf_status_ne_cancelled (b : Bool) : (armedIf b).status ≠ .cancelled := by
  cases b <;> simp [armedIf]

/-- The armed-at-start slots are never already resolved. -/
lemma armedIf_status_ne_resolved (b : Bool) : (armedIf b).status ≠ .resolvedW := by
  cases b <;> simp [armedIf]

/-- No slot of a fresh load is cancelled. -/
lemma initLoadState_no_cancelled (url : String) (opts : GotoOptions) (k : WaitKind) :
    (getSlot (initLoadState url opts) k).status ≠ .cancelled := by
  cases k with
  | fcp => exact armedIf_status_ne_cancelled _
  | loadEvent => exact armedIf_status_ne_cancelled _
  | networkIdle => exact armedIf_status_ne_cancelled _
  | cpuIdle => simp [initLoadState, getSlot]

/-- One step preserves: an unsettled load has no cancelled slot, and under
`waitForLoad` the CPU-idle wait is armed (pending or already resolved)
whenever load-event and network-idle have resolved. -/
lemma stepLoad_no_cancel_and_cpu_ready (s : LoadState) (e : LoadEvt)
    (hp : s.outcome = none →
      (∀ k, (getSlot s k).status ≠ .cancelled) ∧
      (s.opts.waitForLoad = true → s.loadEvent.status = .resolvedW →
        s.networkIdle.status = .resolvedW →
        (s.cpuIdle.status = .pending ∨ s.cpuIdle.status = .resolvedW))) :
    (stepLoad s e).outcome = none →
      (∀ k, (getSlot (stepLoad s e) k).status ≠ .cancelled) ∧
      ((stepLoad s e).opts.waitForLoad = true →
        (stepLoad s e).loadEvent.status = .resolvedW →
        (stepLoad s e).networkIdle.status = .resolvedW →
        ((stepLoad s e).cpuIdle.status = .pending ∨
         (stepLoad s e).cpuIdle.status = .resolvedW)) := by
  by_cases hs : s.outcome.isSome
  · rw [stepLoad_settled s e hs]
    exact hp
  · have hnone : s.outcome = none := Option.not_isSome_iff_eq_none.mp hs
    obtain ⟨hnc, hready⟩ := hp hnone
    cases e with
    | resolveWait w =>
        intro _
        rw [stepLoad_resolveWait s w hs]
        have hA : ∀ j, (getSlot (setSlot s w (resolveSlot (getSlot s w))) j).status
            ≠ .cancelled := by
          intro j
          rw [getSlot_setSlot]
          by_cases hj : j = w
          · rw [if_pos hj]
            exact resolveSlot_ne_cancelled _ (hnc w)
          · rw [if_neg hj]
            exact hnc j
        constructor
        · intro k
          rw [maybeSettle_getSlot]
          cases k with
          | cpuIdle =>
              show ((maybeArmCpu _).cpuIdle).status ≠ _
              rcases maybeArmCpu_cpuIdle (setSlot s w (resolveSlot (getSlot s w)))
                with hm | hm <;> rw [hm]
              · exact armSlot_ne_cancelled _ (hA .cpuIdle)
              · exact hA .cpuIdle
          | fcp =>
              show ((maybeArmCpu _).fcp).status ≠ _
              rw [maybeArmCpu_fcp]
              exact hA .fcp
          | loadEvent =>
              show ((maybeArmCpu _).loadEvent).status ≠ _
              rw [maybeArmCpu_loadEvent]
              exact hA .loadEvent
          | networkIdle =>
              show ((maybeArmCpu _).networkIdle).status ≠ _
              rw [maybeArmCpu_networkIdle]
              exact hA .networkIdle
        · rw [maybeSettle_opts, maybeArmCpu_opts, setSlot_opts,
            maybeSettle_loadEvent, maybeArmCpu_loadEvent,
            maybeSettle_networkIdle, maybeArmCpu_networkIdle,
            maybeSettle_cpuIdle]
          intro hwl hle hne
          rw [maybeArmCpu_cpuIdle_of_resolved _ (by rw [setSlot_opts]; exact hwl) hle hne]
          exact armSlot_pending_or_resolved _ (hA .cpuIdle)
    | frameNavigated u =>
        rw [stepLoad_frameNavigated s u hs]
        split
        · intro h2
          exact absurd h2 (by simp)
        · intro _
          refine ⟨fun k => ?_, fun hwl hle hne => hready hwl hle hne⟩
          cases k with
          | fcp => exact hnc .fcp
          | loadEvent => exact hnc .loadEvent
          | networkIdle => exact hnc .networkIdle
          | cpuIdle => exact hnc .cpuIdle
    | securityStateChanged ev =>
        rw [stepLoad_security s ev hs]
        split
        · exact fun _ => ⟨hnc, hready⟩
        · intro h2
          exact absurd h2 (by simp)
    | maxLoadTimeout =>
        rw [stepLoad_timeout s hs]
        intro h2
        exact absurd h2 (by simp)

/-- One non-timeout step preserves: a successful settlement implies every
enabled signal resolved (under a navigation-event-free configuration). -/
lemma stepLoad_ok_implies_resolved (s : LoadState) (e : LoadEvt)
    (he : e ≠ LoadEvt.maxLoadTimeout)
    (hp : s.opts.waitForNavigated = false →
      ∀ u, s.outcome = some (.ok u) → allEnabledResolved s = true) :
    (stepLoad s e).opts.waitForNavigated = false →
      ∀ u, (stepLoad s e).outcome = some (.ok u) →
        allEnabledResolved (stepLoad s e) = true := by
  by_cases hs : s.outcome.isSome
  · rw [stepLoad_settled s e hs]
    exact hp
  · have hnone : s.outcome = none := Option.not_isSome_iff_eq_none.mp hs
    cases e with
    | resolveWait w =>
        intro _ u hok
        rw [stepLoad_resolveWait s w hs] at hok ⊢
        rw [allEnabledResolved_maybeSettle]
        rw [maybeSettle_outcome] at hok
        by_cases hall : allEnabledResolved
            (maybeArmCpu (setSlot s w (resolveSlot (getSlot s w)))) = true
        · exact hall
        · rw [if_neg hall, maybeArmCpu_outcome, setSlot_outcome, hnone] at hok
          exact absurd hok (by simp)
    | frameNavigated u0 =>
        rw [stepLoad_frameNavigated s u0 hs]
        by_cases hw : s.opts.waitForNavigated = true
        · rw [if_pos hw]
          intro hnav
          have hnav2 : s.opts.waitForNavigated = false := hnav
          rw [hw] at hnav2
          exact absurd hnav2 (by simp)
        · rw [if_neg hw]
          intro _ u hok
          have h2 : s.outcome = some (Except.ok u) := hok
          rw [hnone] at h2
          exact absurd h2 (by simp)
    | securityStateChanged ev =>
        rw [stepLoad_security s ev hs]
        split
        · exact hp
        · intro _ u hok
          have h2 : some (Except.error (insecureError ev)) = some (Except.ok u) := hok
          simp at h2
    | maxLoadTimeout => exact absurd rfl he

/-- Claim C2: with `waitForLoad` enabled — load-event, network-idle and
CPU-idle all requested — the CPU-idle wait is never armed before both the
load-event wait and the network-idle wait have resolved; once both have
resolved (and the load is still in flight) the CPU-idle wait is armed; and
absent the global timeout, `gotoURL` resolves successfully only once every
enabled signal, including the dependent CPU-idle, has resolved. -/
theorem gotoURL_cpu_idle_after_load_and_network_idle
    (url : String) (opts : GotoOptions) (ts : List LoadEvt)
    (h1 : opts.waitForLoad = true) (h2 : opts.waitForNavigated = false)
    (h3 : LoadEvt.maxLoadTimeout ∉ ts) :
    ((runLoad (initLoadState url opts) ts).cpuIdle.status ≠ WaitStatus.notArmed →
      (runLoad (initLoadState url opts) ts).loadEvent.status = WaitStatus.resolvedW ∧
      (runLoad (initLoadState url opts) ts).networkIdle.status = WaitStatus.resolvedW) ∧
    ((runLoad (initLoadState url opts) ts).outcome = none →
      (runLoad (initLoadState url opts) ts).loadEvent.status = WaitStatus.resolvedW →
      (runLoad (initLoadState url opts) ts).networkIdle.status = WaitStatus.resolvedW →
      ((runLoad (initLoadState url opts) ts).cpuIdle.status = WaitStatus.pending ∨
       (runLoad (initLoadState url opts) ts).cpuIdle.status = WaitStatus.resolvedW)) ∧
    (∀ u, (runLoad (initLoadState url opts) ts).outcome = some (Except.ok u) →
      allEnabledResolved (runLoad (initLoadState url opts) ts) = true) := by
  have hopts : (runLoad (initLoadState url opts) ts).opts = opts := runLoad_opts _ _
  refine ⟨?_, ?_, ?_⟩
  · exact runLoad_inv
      (fun s => s.cpuIdle.status ≠ .notArmed →
        s.loadEvent.status = .resolvedW ∧ s.networkIdle.status = .resolvedW)
      stepLoad_cpu_gate (initLoadState url opts) ts (fun hc => absurd rfl hc)
  · intro ho hle hne
    have hinv := runLoad_inv
      (fun s => s.outcome = none →
        (∀ k, (getSlot s k).status ≠ .cancelled) ∧
        (s.opts.waitForLoad = true → s.loadEvent.status = .resolvedW →
          s.networkIdle.status = .resolvedW →
          (s.cpuIdle.status = .pending ∨ s.cpuIdle.status = .resolvedW)))
      stepLoad_no_cancel_and_cpu_ready (initLoadState url opts) ts
      (fun _ => ⟨initLoadState_no_cancelled url opts,
        fun _ hle2 _ => absurd hle2 (armedIf_status_ne_resolved _)⟩)
    exact (hinv ho).2 (by rw [hopts]; exact h1) hle hne
  · have hinv := runLoad_inv_of_no_timeout
      (fun s => s.opts.waitForNavigated = false →
        ∀ u, s.outcome = some (.ok u) → allEnabledResolved s = true)
      stepLoad_ok_implies_resolved ts (initLoadState url opts) h3
      (fun _ u hok => absurd hok (by simp [initLoadState]))
    exact hinv (by rw [hopts]; exact h2)

/-- Claim C2 witness: a `waitForLoad` navigation where load-event then
network-idle resolve — the CPU-idle wait is then armed. -/
theorem gotoURL_cpu_idle_after_load_and_network_idle_witness :
    (runLoad (initLoadState "https://example.com"
        { waitForNavigated := false, waitForFCP := false, waitForLoad := true })
      [LoadEvt.resolveWait WaitKind.loadEvent,
       LoadEvt.resolveWait WaitKind.networkIdle]).cpuIdle.status = WaitStatus.pending ∨
    (runLoad (initLoadState "https://example.com"
        { waitForNavigated := false, waitForFCP := false, waitForLoad := true })
      [LoadEvt.resolveWait WaitKind.loadEvent,
       LoadEvt.resolveWait WaitKind.networkIdle]).cpuIdle.status = WaitStatus.resolvedW :=
  (gotoURL_cpu_idle_after_load_and_network_idle "https://example.com"
      { waitForNavigated := false, waitForFCP := false, waitForLoad := true }
      [LoadEvt.resolveWait WaitKind.loadEvent, LoadEvt.resolveWait WaitKind.networkIdle]
      rfl rfl (by decide)).2.1 (by decide) (by decide) (by decide)

/-- Claim C3: a security-state event that carries at least one explanation
tagged `insecure` and arrives before the load settles makes `gotoURL`
reject with error kind `INSECURE_DOCUMENT_REQUEST` and a message
concatenating the descriptions of exactly the `insecure`-tagged
explanations — explanations with any other tag are excluded — while an
event with no `insecure`-tagged explanations (in particular a `secure`
state) never causes a rejection and leaves the load untouched. -/
theorem gotoURL_rejects_insecure_security_state
    (url : String) (opts : GotoOptions) (ts : List LoadEvt) (ev : SecurityStateEvent)
    (h : (runLoad (initLoadState url opts) ts).outcome = none) :
    ((insecureExplanations ev).isEmpty = false →
      (stepLoad (runLoad (initLoadState url opts) ts)
          (LoadEvt.securityStateChanged ev)).outcome
        = some (Except.error
            { code := "INSECURE_DOCUMENT_REQUEST"
              friendlyMessage := String.intercalate " "
                ((ev.explanations.filter fun x => x.securityState == "insecure").map
                  SecurityExplanation.description) })) ∧
    ((insecureExplanations ev).isEmpty = true →
      stepLoad (runLoad (initLoadState url opts) ts) (LoadEvt.securityStateChanged ev)
        = runLoad (initLoadState url opts) ts) := by
  set s0 := runLoad (initLoadState url opts) ts
  have hs : ¬ s0.outcome.isSome = true := by rw [h]; simp
  constructor
  · intro hne
    rw [stepLoad_security s0 ev hs, if_neg (by rw [hne]; simp)]
    rfl
  · intro hemp
    rw [stepLoad_security s0 ev hs, if_pos hemp]

/-- Claim C3 witness: the driver-test payload with two `insecure` and one
`info` explanation rejects with exactly the two insecure descriptions; the
`secure` payload leaves the load untouched. -/
theorem gotoURL_rejects_insecure_security_state_witness :
    (stepLoad (runLoad (initLoadState "https://www.example.com"
          { waitForNavigated := false, waitForFCP := false, waitForLoad := true }) [])
        (LoadEvt.securityStateChanged
          { securityState := "insecure"
            explanations :=
              [{ description := "reason 1.", securityState := "insecure" },
               { description := "blah.", securityState := "info" },
               { description := "reason 2.", securityState := "insecure" }] })).outcome
      = some (Except.error
          { code := "INSECURE_DOCUMENT_REQUEST"
            friendlyMessage := "reason 1. reason 2." }) ∧
    stepLoad (runLoad (initLoadState "https://www.example.com"
          { waitForNavigated := false, waitForFCP := false, waitForLoad := true }) [])
        (LoadEvt.securityStateChanged { securityState := "secure", explanations := [] })
      = runLoad (initLoadState "https://www.example.com"
          { waitForNavigated := false, waitForFCP := false, waitForLoad := true }) [] := by
  constructor
  · have h := (gotoURL_rejects_insecure_security_state "https://www.example.com"
        { waitForNavigated := false, waitForFCP := false, waitForLoad := true } []
        { securityState := "insecure"
          explanations :=
            [{ description := "reason 1.", securityState := "insecure" },
             { description := "blah.", securityState := "info" },
             { description := "reason 2.", securityState := "insecure" }] }
        (by decide)).1 (by decide)
    rw [h]
    decide
  · exact (gotoURL_rejects_insecure_security_state "https://www.example.com"
      { waitForNavigated := false, waitForFCP := false, waitForLoad := true } []
      { securityState := "secure", explanations := [] } (by decide)).2 (by decide)

/-- A sequence of committed frame navigations updates the committed URL to
the last of the chain (and nothing else) when `waitForNavigated` is off. -/
lemma runLoad_nav_list :
    ∀ (urls : List String) (s : LoadState), s.opts.waitForNavigated = false →
      s.outcome = none →
      runLoad s (urls.map LoadEvt.frameNavigated) = { s with url := urls.getLastD s.url }
  | [], s, _, _ => by
      rw [List.map_nil, runLoad, List.foldl_nil]
      rfl
  | u :: rest, s, h1, h2 => by
      rw [List.map_cons, runLoad, List.foldl_cons]
      have hs : ¬ s.outcome.isSome = true := by rw [h2]; simp
      rw [stepLoad_frameNavigated s u hs, if_neg (by rw [h1]; simp)]
      have ih := runLoad_nav_list rest { s with url := u } h1 h2
      rw [show List.foldl stepLoad { s with url := u } (rest.map LoadEvt.frameNavigated)
          = runLoad { s with url := u } (rest.map LoadEvt.frameNavigated) from rfl]
      rw [ih, List.getLastD_cons]

/-- Claim C5: when a `waitForLoad` navigation traverses several committed
URLs before its waits resolve, `gotoURL` resolves with the final committed
URL of the chain — not the originally requested one nor any intermediate
one; instantiated on the Wikipedia redirect chain of the driver test. -/
theorem gotoURL_resolves_with_final_committed_url
    (u0 : String) (urls : List String) :
    (runLoad (initLoadState u0
          { waitForNavigated := false, waitForFCP := false, waitForLoad := true })
        (urls.map LoadEvt.frameNavigated ++ resolveAllLoadWaits)).outcome
      = some (Except.ok (urls.getLastD u0)) ∧
    (runLoad (initLoadState "http://en.wikipedia.org/"
          { waitForNavigated := false, waitForFCP := false, waitForLoad := true })
        (["https://en.wikipedia.org/", "https://en.wikipedia.org/wiki/Main_Page",
          "https://en.m.wikipedia.org/wiki/Main_Page"].map LoadEvt.frameNavigated
          ++ resolveAllLoadWaits)).outcome
      = some (Except.ok "https://en.m.wikipedia.org/wiki/Main_Page") := by
  constructor
  · rw [runLoad_append]
    rw [runLoad_nav_list urls (initLoadState u0
        { waitForNavigated := false, waitForFCP := false, waitForLoad := true }) rfl rfl]
    simp [runLoad, resolveAllLoadWaits, stepLoad, getSlot, setSlot, resolveSlot,
      armSlot, maybeArmCpu, maybeSettle, allEnabledResolved, initLoadState, armedIf]
  · decide

/-- Membership in the blocking-version list: same-origin joined versions
that still have controlled clients. -/
lemma mem_sw_blockers (pageUrl : String) (regs : List SWRegistration)
    (vs : List SWVersion) (v : SWVersion) :
    v ∈ (versionsOfRegistrations (matchingRegistrations pageUrl regs) vs).filter
        (fun v => !v.controlledClients.isEmpty)
      ↔ (v ∈ versionsOfRegistrations (matchingRegistrations pageUrl regs) vs ∧
          v.controlledClients ≠ []) := by
  rw [List.mem_filter]
  simp [List.isEmpty_iff]

/-- Claim C6: `assertNoSameOriginServiceWorkerClients` succeeds without
waiting when there are no registrations, when every matching same-origin
worker has an empty controlled-clients list, or when the workers holding
controlled clients belong to a different origin; it fails with the
message about a worker controlling other open tabs when a terminal-status
non-deleted same-origin worker still has controlled clients; and while a
matching clients-holding worker's status is non-terminal it does not
settle but re-evaluates on each subsequent version-update event. -/
theorem assertNoSameOriginServiceWorkerClients_behavior
    (pageUrl : String) (regs : List SWRegistration) (vs : List SWVersion)
    (events : List (List SWVersion)) :
    (swDecision pageUrl [] vs = SWDecision.pass) ∧
    ((∀ v ∈ versionsOfRegistrations (matchingRegistrations pageUrl regs) vs,
        v.controlledClients = []) → swDecision pageUrl regs vs = SWDecision.pass) ∧
    ((∀ r ∈ regs, urlOrigin r.scopeURL ≠ urlOrigin pageUrl) →
      swDecision pageUrl regs vs = SWDecision.pass) ∧
    ((∀ v ∈ versionsOfRegistrations (matchingRegistrations pageUrl regs) vs,
        v.controlledClients ≠ [] → isTerminalStatus v.status = true) →
      (∃ v ∈ versionsOfRegistrations (matchingRegistrations pageUrl regs) vs,
        v.controlledClients ≠ []) →
      swDecision pageUrl regs vs = SWDecision.fail swFailureMessage) ∧
    ((∃ v ∈ versionsOfRegistrations (matchingRegistrations pageUrl regs) vs,
        v.controlledClients ≠ [] ∧ isTerminalStatus v.status = false) →
      swDecision pageUrl regs vs = SWDecision.keepWaiting ∧
      swRun pageUrl regs (vs :: events) = swRun pageUrl regs events) := by
  refine ⟨?_, ?_, ?_, ?_, ?_⟩
  · simp [swDecision, matchingRegistrations, versionsOfRegistrations]
  · intro hcl
    have hb : (versionsOfRegistrations (matchingRegistrations pageUrl regs) vs).filter
        (fun v => !v.controlledClients.isEmpty) = [] := by
      rw [List.filter_eq_nil_iff]
      intro v hv
      simp [hcl v hv]
    simp [swDecision, hb]
  · intro hor
    have hm : matchingRegistrations pageUrl regs = [] := by
      rw [matchingRegistrations, List.filter_eq_nil_iff]
      intro r hr
      simp [hor r hr]
    simp [swDecision, versionsOfRegistrations, hm]
  · intro hterm hex
    obtain ⟨v, hv, hvc⟩ := hex
    have hany : ((versionsOfRegistrations (matchingRegistrations pageUrl regs) vs).filter
        (fun v => !v.controlledClients.isEmpty)).any
          (fun v => !(isTerminalStatus v.status)) = false := by
      rw [List.any_eq_false]
      intro w hw
      obtain ⟨hw1, hw2⟩ := (mem_sw_blockers pageUrl regs vs w).mp hw
      simp [hterm w hw1 hw2]
    have hne : ((versionsOfRegistrations (matchingRegistrations pageUrl regs) vs).filter
        (fun v => !v.controlledClients.isEmpty)).isEmpty = false := by
      rw [List.isEmpty_eq_false_iff_exists_mem]
      exact ⟨v, (mem_sw_blockers pageUrl regs vs v).mpr ⟨hv, hvc⟩⟩
    simp only [swDecision, hany, hne]
    rfl
  · intro hex
    obtain ⟨v, hv, hvc, hvt⟩ := hex
    have hany : ((versionsOfRegistrations (matchingRegistrations pageUrl regs) vs).filter
        (fun v => !v.controlledClients.isEmpty)).any
          (fun v => !(isTerminalStatus v.status)) = true := by
      rw [List.any_eq_true]
      exact ⟨v, (mem_sw_blockers pageUrl regs vs v).mpr ⟨hv, hvc⟩, by simp [hvt]⟩
    have hdec : swDecision pageUrl regs vs = SWDecision.keepWaiting := by
      simp only [swDecision, hany]
      rfl
    exact ⟨hdec, by rw [swRun, hdec]⟩

/-- Claim C6 witness: the four driver-test scenarios — no registrations; a
same-origin worker with no controlled clients; a same-origin activated
worker with a controlled client; and the same worker still installing,
which keeps the assertion waiting until the activated update arrives. -/
theorem assertNoSameOriginServiceWorkerClients_behavior_witness :
    swDecision "https://example.com/" [] [] = SWDecision.pass ∧
    swDecision "https://example.com/"
        [{ registrationId := 1, scopeURL := "https://example.com/", isDeleted := false }]
        [{ registrationId := 1, scriptURL := "https://example.com/sw.js",
           controlledClients := [], status := "activated" }] = SWDecision.pass ∧
    swDecision "https://example.com/"
        [{ registrationId := 1, scopeURL := "https://example.edu", isDeleted := false }]
        [{ registrationId := 1, scriptURL := "https://example.edusw.js",
           controlledClients := ["uniqueId"], status := "activated" }] = SWDecision.pass ∧
    swDecision "https://example.com/"
        [{ registrationId := 1, scopeURL := "https://example.com/", isDeleted := false }]
        [{ registrationId := 1, scriptURL := "https://example.com/sw.js",
           controlledClients := ["uniqueId"], status := "activated" }]
      = SWDecision.fail swFailureMessage ∧
    swDecision "https://example.com/"
        [{ registrationId := 1, scopeURL := "https://example.com/", isDeleted := false }]
        [{ registrationId := 1, scriptURL := "https://example.com/sw.js",
           controlledClients := ["uniqueId"], status := "installing" }]
      = SWDecision.keepWaiting ∧
    swRun "https://example.com/"
        [{ registrationId := 1, scopeURL := "https://example.com/", isDeleted := false }]
        [[{ registrationId := 1, scriptURL := "https://example.com/sw.js",
            controlledClients := ["uniqueId"], status := "installing" }],
         [{ registrationId := 1, scriptURL := "https://example.com/sw.js",
            controlledClients := [], status := "activated" }]]
      = some (Except.ok ()) := by
  refine ⟨?_, ?_, ?_, ?_, ?_, ?_⟩
  · exact (assertNoSameOriginServiceWorkerClients_behavior "https://example.com/" [] []
      []).1
  · exact (assertNoSameOriginServiceWorkerClients_behavior "https://example.com/"
      [{ registrationId := 1, scopeURL := "https://example.com/", isDeleted := false }]
      [{ registrationId := 1, scriptURL := "https://example.com/sw.js",
         controlledClients := [], status := "activated" }] []).2.1 (by decide)
  · exact (assertNoSameOriginServiceWorkerClients_behavior "https://example.com/"
      [{ registrationId := 1, scopeURL := "https://example.edu", isDeleted := false }]
      [{ registrationId := 1, scriptURL := "https://example.edusw.js",
         controlledClients := ["uniqueId"], status := "activated" }] []).2.2.1 (by decide)
  · exact (assertNoSameOriginServiceWorkerClients_behavior "https://example.com/"
      [{ registrationId := 1, scopeURL := "https://example.com/", isDeleted := false }]
      [{ registrationId := 1, scriptURL := "https://example.com/sw.js",
         controlledClients := ["uniqueId"], status := "activated" }] []).2.2.2.1
      (by decide) (by decide)
  · exact ((assertNoSameOriginServiceWorkerClients_behavior "https://example.com/"
      [{ registrationId := 1, scopeURL := "https://example.com/", isDeleted := false }]
      [{ registrationId := 1, scriptURL := "https://example.com/sw.js",
         controlledClients := ["uniqueId"], status := "installing" }] []).2.2.2.2
      (by decide)).1
  · have h := ((assertNoSameOriginServiceWorkerClients_behavior "https://example.com/"
      [{ registrationId := 1, scopeURL := "https://example.com/", isDeleted := false }]
      [{ registrationId := 1, scriptURL := "https://example.com/sw.js",
         controlledClients := ["uniqueId"], status := "installing" }]
      [[{ registrationId := 1, scriptURL := "https://example.com/sw.js",
          controlledClients := [], status := "activated" }]]).2.2.2.2 (by decide)).2
    rw [h]
    decide

end Lighthouse
